import Mathlib

/-!
# Shard editor — verification of the coordination and save/dirty core

A shallow embedding of `src/main.py` (the Shard text editor): the launch
coordinator (`Shard`) with its queue file, running marker and active-instance
counter, and the per-window editor session (`ShardInstance`) with its
load/save/dirty logic and settings validation.

Conventions of the embedding:
* Python strings are `List Char` (`Str`), and the Python primitives the code
  uses (`str.strip`, `str.rstrip('\n')`, `str.split(sep)`, `sep.join`,
  `str.isdecimal`, `int(...)`, f-string rendering of `None`) are defined below
  over that type.
* The Tk text widget is its text content; `editor.get("1.0", END)` appends the
  widget's phantom trailing newline (`tkGetEnd`).
* The filesystem is threaded explicitly: reads are a `ReadResult` parameter,
  writes appear as the written content in a function's result.  Directory
  components of paths are abstracted; the file a session saves to or re-reads
  is identified by the threaded content.
* GUI dialogs (`showerror`, `showwarning`, `asksaveasfilename`) appear as
  result flags / parameters.
-/

abbrev Str := List Char

/-- Whitespace as Python's `str.strip()` sees it (the characters occurring in
this program's data; Python also strips some rarer control characters). -/
def isPySpace (c : Char) : Bool :=
  c = ' ' ∨ c = '\t' ∨ c = '\n' ∨ c = '\r' ∨ c = '\x0b' ∨ c = '\x0c'

/-- Python `s.strip()`: drop leading and trailing whitespace. -/
def pyStrip (s : Str) : Str :=
  (((s.dropWhile isPySpace).reverse).dropWhile isPySpace).reverse

/-- Python `s.rstrip('\n')`: drop every trailing newline. -/
def pyRstripNL (s : Str) : Str :=
  (s.reverse.dropWhile (fun c => c = '\n')).reverse

/-- Python `s.split(sep)` for a one-character separator: `""` yields `[""]`,
adjacent separators yield empty fields.  The result is never `[]`, so
`headI`/`tail` read its first field and the rest. -/
def pySplit (sep : Char) : Str → List Str
  | [] => [[]]
  | c :: cs =>
    let r := pySplit sep cs
    if c = sep then [] :: r else (c :: r.headI) :: r.tail

/-- Python `sep.join(parts)` for a one-character separator. -/
def pyJoin (sep : Char) : List Str → Str
  | [] => []
  | [x] => x
  | x :: xs => x ++ sep :: pyJoin sep xs

/-- Python `s.isdecimal()` on the ASCII data this program stores. -/
def pyIsDecimal (s : Str) : Bool :=
  !s.isEmpty && s.all (·.isDigit)

/-- Python `int(s)` on a decimal string. -/
def pyInt (s : Str) : Nat :=
  s.foldl (fun a c => a * 10 + (c.toNat - '0'.toNat)) 0

/-- The decimal rendering `str(n)` of a natural number. -/
def natStr (n : Nat) : Str := Nat.toDigits 10 n


/-! ## The data model

`application_name = "Shard"`; window titles are `<name> - Shard`
(`ShardInstance.update_window_title`). -/

def applicationName : Str := "Shard".data

/-- `self.root.title(string + f" - {application_name}")`. -/
def windowTitle (s : Str) : Str := s ++ (" - ".data ++ applicationName)

/-- `editor.get("1.0", END)`: the Tk text widget always reports its content
with one phantom trailing newline appended. -/
def tkGetEnd (buffer : Str) : Str := buffer ++ ['\n']

/-- One editor window's state (`ShardInstance`): `self.filename` (the display
name, also the final path component saved to), `self.new_file`, the widget's
text content, and the displayed window title. -/
structure Instance where
  filename : Str
  newFile : Bool
  buffer : Str
  title : Str
deriving DecidableEq

/-- Outcome of one `open(path, encoding="UTF-8").read()` attempt, including
the `ANSI` retry the code performs on `UnicodeDecodeError`:
`content` = clean UTF-8 read, `fallback` = ANSI retry succeeded with this
text, `decodeFailBoth` = the retry raised as well. -/
inductive ReadResult where
  | content (s : Str)
  | fallback (s : Str)
  | notFound
  | permDenied
  | decodeFailBoth
deriving DecidableEq

/-- Outcome of one `open(path, 'w').write(content)` attempt, including the
`ANSI` retry on `UnicodeEncodeError`. -/
inductive WriteOutcome where
  | okUTF8
  | permDenied
  | encodeFailThenOk
  | encodeFailThenFail
deriving DecidableEq

/-- `Path(p).stem + Path(p).suffix`: the final path component. -/
def pathName (p : Str) : Str :=
  (((pySplit '\\' p).flatMap (pySplit '/')).getLastD [])

/-! ## Launch coordinator (`Shard`) -/

/-- f-string rendering of a `create_instance` argument: a path string renders
as itself, the `None` default renders as the four characters `None`
(`file.write(f"\n{path}")`). -/
def strOfArg : Option Str → Str
  | none => "None".data
  | some s => s

/-- `Shard.add_instance_to_list`: append `"\n" + str(path)` to the queue
file. -/
def addInstanceToList (q : Str) (path : Option Str) : Str :=
  q ++ '\n' :: strOfArg path

/-- The session a `ShardInstance(...)` construction is asked for:
`ShardInstance(master, filepath) if filepath != "None" else
ShardInstance(master)` in `Shard.create_instance`. -/
inductive SessionReq where
  | blank
  | file (path : Str)
deriving DecidableEq

def mkSession (arg : Option Str) : SessionReq :=
  match arg with
  | none => .blank
  | some s => if s = "None".data then .blank else .file s

/-- `Shard.create_instance(filepath, main)` acting on the queue: when the
running marker exists and `main` is false the path is appended to the queue
and no session is constructed; otherwise a session is constructed. -/
def createInstance (markerExists : Bool) (main : Bool) (q : Str)
    (arg : Option Str) : Str × Option SessionReq :=
  if markerExists ∧ ¬ main then (addInstanceToList q arg, none)
  else (q, some (mkSession arg))

/-- One full drain of the queue file in `Shard.open_instances_from_list`:
read everything, `strip().split('\n')`, truncate the file, and keep each
line whose `strip()` is non-empty as an open request. -/
structure DrainResult where
  requests : List Str
  newQueue : Str
deriving DecidableEq

def drainQueue (q : Str) : DrainResult :=
  { requests :=
      if (pySplit '\n' (pyStrip q)).isEmpty then []
      else (pySplit '\n' (pyStrip q)).filter (fun l => !(pyStrip l).isEmpty)
  , newQueue := [] }

/-- The sessions one poll-loop drain constructs:
`create_instance(ins, main=True)` for each surviving line. -/
def drainSessions (q : Str) : List SessionReq :=
  (drainQueue q).requests.map (fun l => mkSession (some l))

/-- `Shard.start` as run by a process that found the running marker present
(the launch-contention path): after the 0.2 s sleep it re-reads the queue;
if the queue strips to empty it destroys its Tk root and returns (no session
ever constructed by this process), otherwise it falls through, creates the
marker (`exist_ok=True`) and enters `open_instances_from_list` itself —
constructing the queued sessions in this very process.  Returns whether the
process entered the poll loop, and the sessions its first tick constructs. -/
def secondProcessRun (queueAfterSleep : Str) : Bool × List SessionReq :=
  if pyStrip queueAfterSleep = [] then (false, [])
  else (true, drainSessions queueAfterSleep)

/-- The `__main__`/`create_instance` phase of a process launched while the
marker exists: every requested path (or the blank `None` request) is pushed
through `create_instance(fpath)` with `main=False`, i.e. appended. -/
def secondProcessAppendPhase (q : Str) (args : List (Option Str)) : Str :=
  args.foldl (fun acc a => (createInstance true false acc a).1) q

/-! ## Editor session construction (`ShardInstance.__init__`) -/

/-- The result of constructing a `ShardInstance`: the session (or `none`
when construction aborted), the net change to `Shard.active_instances`, and
whether an error dialog was shown.  With a `filepath`, `new_file` is set
`False`, then the read runs: `PermissionError` and a failed `ANSI` retry call
`close_instance()` (which decrements the counter — with no matching
increment, since `active_instances += 1` only runs at the end of a
successful construction) and return; `FileNotFoundError` keeps an empty
buffer and restores `new_file = True`.  `filename` is set to
`stem + suffix` of the path on every surviving branch. -/
structure InitResult where
  inst : Option Instance
  activeDelta : Int
  errored : Bool
deriving DecidableEq

def shardInstanceInit (filepath : Option Str) (disk : ReadResult) : InitResult :=
  match filepath with
  | none =>
      { inst := some { filename := "Untitled".data, newFile := true,
                       buffer := [], title := windowTitle "Untitled".data }
        activeDelta := 1, errored := false }
  | some p =>
      match disk with
      | .content c =>
          { inst := some { filename := pathName p, newFile := false,
                           buffer := c, title := windowTitle (pathName p) }
            activeDelta := 1, errored := false }
      | .fallback c =>
          { inst := some { filename := pathName p, newFile := false,
                           buffer := c, title := windowTitle (pathName p) }
            activeDelta := 1, errored := false }
      | .notFound =>
          { inst := some { filename := pathName p, newFile := true,
                           buffer := [], title := windowTitle (pathName p) }
            activeDelta := 1, errored := false }
      | .permDenied => { inst := none, activeDelta := -1, errored := true }
      | .decodeFailBoth => { inst := none, activeDelta := -1, errored := true }

/-! ## Process lifetime: poll loop and instance close -/

/-- The coordinator-visible process state: queue file content,
`Shard.active_instances`, whether the `run` marker directory exists, and
whether the process is still alive. -/
structure CoordState where
  queue : Str
  active : Int
  markerExists : Bool
  alive : Bool
deriving DecidableEq

/-- `ShardInstance.close_instance`: decrement the counter and destroy the
window.  It neither exits the process nor touches the marker. -/
def closeInstance (s : CoordState) : CoordState :=
  { s with active := s.active - 1 }

/-- The observed instance count at the `close_shard_if_no_instances_running`
check of one poll tick: the old count plus the net delta of every instance
construction this tick performed (`reads i` is the disk read the `i`-th
construction saw). -/
def pollObservedActive (s : CoordState) (reads : Nat → ReadResult) : Int :=
  s.active +
    ((drainSessions s.queue).enum.map (fun ir =>
      (shardInstanceInit
        (match ir.2 with | .blank => none | .file p => some p)
        (reads ir.1)).activeDelta)).sum

/-- One tick of `Shard.open_instances_from_list`: drain the queue, construct
an instance per request, then `close_shard_if_no_instances_running` — if the
observed count is ≤ 0, destroy the root, remove the marker and exit;
otherwise reschedule in 69 ms. -/
def pollTick (s : CoordState) (reads : Nat → ReadResult) : CoordState :=
  let active' := pollObservedActive s reads
  if active' ≤ 0 then
    { queue := [], active := active', markerExists := false, alive := false }
  else
    { queue := [], active := active', markerExists := s.markerExists,
      alive := true }

/-! ## Dirty check (`ShardInstance.is_file_saved`) -/

/-- The result of one `is_file_saved()` call: the Python return value
(`none` models the bare `return` on the fatal branches), the updated
session, whether `close_instance` ran, and whether an error dialog was
shown. -/
structure SavedCheck where
  result : Option Bool
  inst : Instance
  closedInstance : Bool
  errored : Bool
deriving DecidableEq

/-- `is_file_saved`: for a new file, star the title exactly when the buffer
(`rstrip('\n')`) is non-empty and return `False` unconditionally; otherwise
re-read the file at `filepath.parent / filename` and compare, with
`FileNotFoundError` demoting to `new_file = True` (no title change),
`PermissionError` and a doubly-failed decode closing the instance. -/
def isFileSaved (inst : Instance) (disk : ReadResult) : SavedCheck :=
  if inst.newFile then
    if pyRstripNL (tkGetEnd inst.buffer) ≠ [] then
      { result := some false,
        inst := { inst with title := windowTitle ('*' :: inst.filename) },
        closedInstance := false, errored := false }
    else
      { result := some false,
        inst := { inst with title := windowTitle inst.filename },
        closedInstance := false, errored := false }
  else
    match disk with
    | .content c | .fallback c =>
        if pyRstripNL c = pyRstripNL (tkGetEnd inst.buffer) then
          { result := some true,
            inst := { inst with title := windowTitle inst.filename },
            closedInstance := false, errored := false }
        else
          { result := some false,
            inst := { inst with title := windowTitle ('*' :: inst.filename) },
            closedInstance := false, errored := false }
    | .notFound =>
        { result := some false, inst := { inst with newFile := true },
          closedInstance := false, errored := false }
    | .permDenied =>
        { result := none, inst := inst, closedInstance := true,
          errored := true }
    | .decodeFailBoth =>
        { result := none, inst := inst, closedInstance := true,
          errored := true }

/-! ## Save (`ShardInstance.save_file`, `ShardInstance.save_window`) -/

/-- The reserved characters of `save_file`'s filename check:
`set('/\\:*?"<>|')`. -/
def reservedChars : Str := "/\\:*?\x22<>|".data

/-- `list(set(filename).intersection(set('/\\:*?"<>|')))` is non-empty. -/
def hasReservedChar (s : Str) : Bool :=
  s.any (fun c => reservedChars.contains c)

/-- The result of one `save_file()` call: the updated session, the content
written to the target file (`none` when no write landed), whether the
invalid-filename warning or an error dialog was shown, whether
`close_instance` ran, and whether the call returned `True`. -/
structure SaveResult where
  inst : Instance
  written : Option Str
  warned : Bool
  errored : Bool
  closed : Bool
  returnedTrue : Bool
deriving DecidableEq

/-- `save_file(saveAs, close_after_saving)` (the `saveAs` parameter is
unused by the body).  An empty-after-strip filename returns silently; a
reserved character warns and returns; otherwise the widget content
(`editor.get("1.0", END)`, phantom newline included) is written.  Note the
code falls through after a caught write error: the title is unstarred,
`new_file` is cleared and — when requested — the instance is closed even
though nothing was written. -/
def saveFile (inst : Instance) (w : WriteOutcome) (closeAfterSaving : Bool) :
    SaveResult :=
  if pyStrip inst.filename = [] then
    { inst := inst, written := none, warned := false, errored := false,
      closed := false, returnedTrue := false }
  else if hasReservedChar inst.filename then
    { inst := inst, written := none, warned := true, errored := false,
      closed := false, returnedTrue := false }
  else
    let content := tkGetEnd inst.buffer
    let written : Option Str :=
      match w with
      | .okUTF8 => some content
      | .permDenied => none
      | .encodeFailThenOk => some content
      | .encodeFailThenFail => none
    let errored : Bool :=
      match w with
      | .okUTF8 => false
      | .permDenied => true
      | .encodeFailThenOk => false
      | .encodeFailThenFail => true
    let inst' : Instance :=
      { inst with title := windowTitle inst.filename, newFile := false }
    { inst := inst', written := written, warned := false, errored := errored,
      closed := closeAfterSaving, returnedTrue := true }

/-- The result of one `save_window()` call: the updated session, the content
written to the document file, whether the last-save-location record file was
written, plus the dialog/close flags of the inner calls. -/
structure SaveWindowResult where
  inst : Instance
  docWritten : Option Str
  lastSaveLocWritten : Bool
  warned : Bool
  errored : Bool
  closedInst : Bool
deriving DecidableEq

/-- `save_window(saveAs, close_after_saving)`.  Parameters: `disk` is the
read `is_file_saved` performs on the not-`saveAs` path, `dialog` the file
name `asksaveasfilename` returns (`none` for a cancelled/empty dialog), `w`
the write outcome of the final `save_file`.  On the dialog path the code
rebinds `self.filepath`/`self.filename` and writes the last-save-location
record *before* `save_file` runs its filename validation. -/
def saveWindow (inst : Instance) (saveAs closeAfterSaving : Bool)
    (disk : ReadResult) (dialog : Option Str) (w : WriteOutcome) :
    SaveWindowResult :=
  let dialogPath := fun (inst1 : Instance) (closedNow : Bool) =>
    match dialog with
    | none =>
        { inst := inst1, docWritten := none, lastSaveLocWritten := false,
          warned := false, errored := false, closedInst := closedNow }
    | some name =>
        let inst2 := { inst1 with filename := pathName name }
        let r := saveFile inst2 w closeAfterSaving
        { inst := r.inst, docWritten := r.written, lastSaveLocWritten := true,
          warned := r.warned, errored := r.errored,
          closedInst := closedNow || r.closed }
  if !saveAs then
    let chk := isFileSaved inst disk
    if chk.result.getD false then
      { inst := chk.inst, docWritten := none, lastSaveLocWritten := false,
        warned := false, errored := chk.errored,
        closedInst := chk.closedInstance }
    else if !chk.inst.newFile then
      let r := saveFile chk.inst w closeAfterSaving
      { inst := r.inst, docWritten := r.written, lastSaveLocWritten := false,
        warned := r.warned, errored := chk.errored || r.errored,
        closedInst := chk.closedInstance || r.closed }
    else dialogPath chk.inst chk.closedInstance
  else dialogPath inst false

/-! ## Settings (`ShardInstance.get_editor_settings`,
`ShardInstance.validate_written_settings`,
`ShardInstance.save_editor_settings`)

The allowed-value lists as the code builds them (`sorted(...)` in the code
only reorders them for the value-cycling UI; membership is unchanged). -/

def colors : List Str :=
  ["black".data, "white".data, "red".data, "silver".data, "gray".data,
   "yellow".data, "sky blue".data, "green".data, "lime".data, "blue".data,
   "coral".data, "bisque".data, "purple".data, "pink".data]

def fonts : List Str :=
  ["Consolas".data, "Courier New".data, "Lucida Console".data,
   "NSimSun".data, "Cascadia Mono".data, "MS Gothic".data]

/-- `sorted(list(range(8, 28, 2)) + [32, 48, 11, 72, 64, 96])`. -/
def sizes : List Nat :=
  [8, 10, 12, 14, 16, 18, 20, 22, 24, 26] ++ [32, 48, 11, 72, 64, 96]

/-- `list(range(4, 17, 2))`. -/
def tabsizeAllowed : List Nat := [4, 6, 8, 10, 12, 14, 16]

/-- `list(range(30, 101))`. -/
def opacityAllowed : List Nat := List.range' 30 71

def fontStyles : List Str := ["bold".data, "normal".data]
def windowStates : List Str := ["normal".data, "zoomed".data]
def textWrapping : List Str := ["word".data, "none".data]

/-- The nine editor settings variables, post-validation. -/
structure EditorSettings where
  bg : Str
  fg : Str
  font : Str
  tabsize : Nat
  fontSize : Nat
  opacity : Nat
  bold : Str
  windowState : Str
  textWrap : Str
deriving DecidableEq

/-- `ShardInstance.validate_written_settings(vals)`: unpack the first nine
fields (the callers always supply at least nine) and validate each
independently against its allow list, falling back to the documented
default. -/
def validateWrittenSettings (vals : List Str) : EditorSettings :=
  let bg := vals.getD 0 []
  let fg := vals.getD 1 []
  let ft := vals.getD 2 []
  let tb := vals.getD 3 []
  let fs := vals.getD 4 []
  let op := vals.getD 5 []
  let bd := vals.getD 6 []
  let ws := vals.getD 7 []
  let tw := vals.getD 8 []
  { bg := if colors.contains bg then bg else "black".data
  , fg := if colors.contains fg then fg else "white".data
  , font := if fonts.contains ft then ft else "Consolas".data
  , tabsize :=
      if pyIsDecimal tb && tabsizeAllowed.contains (pyInt tb) then pyInt tb
      else 4
  , fontSize :=
      if pyIsDecimal fs && sizes.contains (pyInt fs) then pyInt fs else 20
  , opacity :=
      if pyIsDecimal op && opacityAllowed.contains (pyInt op) then pyInt op
      else 100
  , bold := if fontStyles.contains bd then bd else "normal".data
  , windowState := if windowStates.contains ws then ws else "normal".data
  , textWrap := if textWrapping.contains tw then tw else "word".data }

/-- The nine fields as `save_editor_settings` renders them. -/
def fieldStrings (s : EditorSettings) : List Str :=
  [s.bg, s.fg, s.font, natStr s.tabsize, natStr s.fontSize,
   natStr s.opacity, s.bold, s.windowState, s.textWrap]

/-- `ShardInstance.save_editor_settings`: the tab-joined record written
back. -/
def serializeSettings (s : EditorSettings) : Str :=
  pyJoin '\t' (fieldStrings s)

/-- `ShardInstance.get_editor_settings`: read the settings file, split on
tabs; if at least nine fields are present and all are non-empty validate
them as-is, otherwise validate the list padded with nine empty fields.
`validate_written_settings` ends by rewriting the corrected record, returned
here as the second component. -/
def getEditorSettings (content : Str) : EditorSettings × Str :=
  let current := pySplit '\t' content
  let s :=
    if 9 ≤ current.length ∧ current.all (fun f => !f.isEmpty) = true then
      validateWrittenSettings current
    else
      validateWrittenSettings (current ++ List.replicate 9 [])
  (s, serializeSettings s)

/-- The per-field validity check exactly as `validate_written_settings`
performs it, indexed by field position. -/
def codeValidB (j : Nat) (s : Str) : Bool :=
  match j with
  | 0 => colors.contains s
  | 1 => colors.contains s
  | 2 => fonts.contains s
  | 3 => pyIsDecimal s && tabsizeAllowed.contains (pyInt s)
  | 4 => pyIsDecimal s && sizes.contains (pyInt s)
  | 5 => pyIsDecimal s && opacityAllowed.contains (pyInt s)
  | 6 => fontStyles.contains s
  | 7 => windowStates.contains s
  | 8 => textWrapping.contains s
  | _ => false

/-- A stored field as the program itself writes it: valid, and for the three
numeric fields in canonical decimal form (which is how
`save_editor_settings` always renders them). -/
def storedValidB (j : Nat) (s : Str) : Bool :=
  codeValidB j s &&
    (match j with
     | 3 | 4 | 5 => decide (s = natStr (pyInt s))
     | _ => true)

/-- The documented defaults, rendered as record fields. -/
def defaultFields : List Str :=
  ["black".data, "white".data, "Consolas".data, natStr 4, natStr 20,
   natStr 100, "normal".data, "normal".data, "word".data]

/-! ## Queue-drain lemmas -/

/-- A sequence of `add_instance_to_list(path)` producer calls. -/
def appendAll (q : Str) (paths : List Str) : Str :=
  paths.foldl (fun acc p => addInstanceToList acc (some p)) q

/-- A queue-line is well formed when it is its own `strip`, non-empty, and
newline-free — which is what `str(Path(...).resolve())` produces. -/
def goodLine (p : Str) : Prop := pyStrip p = p ∧ p ≠ [] ∧ '\n' ∉ p

/-- Equality of buffers up to one trailing newline. -/
def eqUpToOneTrailingNL (a b : Str) : Prop :=
  a = b ∨ a = b ++ ['\n'] ∨ b = a ++ ['\n']

/-! ## String-primitive lemmas -/


theorem pySplit_ne_nil (sep : Char) (s : Str) : pySplit sep s ≠ [] := by
  cases s with
  | nil => simp [pySplit]
  | cons c cs => simp only [pySplit]; split <;> simp

/-- A separator-free string splits to itself alone. -/
theorem pySplit_eq_self (sep : Char) (s : Str) (h : sep ∉ s) :
    pySplit sep s = [s] := by
  induction s with
  | nil => rfl
  | cons c cs ih =>
    simp only [List.mem_cons, not_or] at h
    simp only [pySplit, ih h.2]
    rw [if_neg fun hc => h.1 hc.symm]
    rfl

/-- Splitting past a separator-free prefix. -/
theorem pySplit_append (sep : Char) (x y : Str) (h : sep ∉ x) :
    pySplit sep (x ++ sep :: y) = x :: pySplit sep y := by
  induction x with
  | nil => simp [pySplit]
  | cons c cs ih =>
    simp only [List.mem_cons, not_or] at h
    simp only [List.cons_append, pySplit, List.append_eq, ih h.2]
    rw [if_neg fun hc => h.1 hc.symm]
    rfl

/-- `join` then `split` is the identity on a non-empty list of
separator-free parts. -/
theorem pySplit_pyJoin (sep : Char) (L : List Str) (hne : L ≠ [])
    (h : ∀ x ∈ L, sep ∉ x) : pySplit sep (pyJoin sep L) = L := by
  induction L with
  | nil => exact absurd rfl hne
  | cons x xs ih =>
    cases xs with
    | nil => exact pySplit_eq_self sep x (h x (by simp))
    | cons y ys =>
      have hx : sep ∉ x := h x (by simp)
      show pySplit sep (x ++ sep :: pyJoin sep (y :: ys)) = _
      rw [pySplit_append sep x _ hx]
      rw [ih (by simp) (fun z hz => h z (List.mem_cons_of_mem x hz))]

theorem pyStrip_length_le (s : Str) : (pyStrip s).length ≤ s.length := by
  unfold pyStrip
  calc ((((s.dropWhile isPySpace).reverse).dropWhile isPySpace).reverse).length
      = (((s.dropWhile isPySpace).reverse).dropWhile isPySpace).length := by
        rw [List.length_reverse]
    _ ≤ ((s.dropWhile isPySpace).reverse).length :=
        (List.dropWhile_sublist _).length_le
    _ = (s.dropWhile isPySpace).length := by rw [List.length_reverse]
    _ ≤ s.length := (List.dropWhile_sublist _).length_le

/-- A string fixed by `strip` does not start with whitespace. -/
theorem head_not_space_of_pyStrip_eq {c : Char} {cs : Str}
    (h : pyStrip (c :: cs) = c :: cs) : isPySpace c = false := by
  by_contra hc
  have hc' : isPySpace c = true := by
    cases h' : isPySpace c with
    | false => exact absurd h' hc
    | true => rfl
  have hlt : ((c :: cs).dropWhile isPySpace).length < (c :: cs).length := by
    rw [List.dropWhile_cons_of_pos hc', List.length_cons]
    exact Nat.lt_succ_of_le (List.dropWhile_sublist _).length_le
  have : (pyStrip (c :: cs)).length < (c :: cs).length := by
    unfold pyStrip
    calc ((((c :: cs).dropWhile isPySpace).reverse).dropWhile isPySpace).reverse.length
        ≤ ((c :: cs).dropWhile isPySpace).length := by
          rw [List.length_reverse]
          calc ((((c :: cs).dropWhile isPySpace).reverse).dropWhile isPySpace).length
              ≤ (((c :: cs).dropWhile isPySpace).reverse).length :=
                (List.dropWhile_sublist _).length_le
            _ = ((c :: cs).dropWhile isPySpace).length := List.length_reverse _
      _ < (c :: cs).length := hlt
  rw [h] at this
  exact Nat.lt_irrefl _ this

/-- `strip` is the empty string exactly on all-whitespace input. -/
theorem pyStrip_eq_nil_iff (s : Str) :
    pyStrip s = [] ↔ ∀ c ∈ s, isPySpace c = true := by
  unfold pyStrip
  rw [List.reverse_eq_nil_iff, List.dropWhile_eq_nil_iff]
  constructor
  · intro h c hc
    by_cases hsp : isPySpace c = true
    · exact hsp
    · exfalso
      -- c survives the first dropWhile, hence appears in the reversed list
      have hc' : c ∈ s.dropWhile isPySpace := by
        have := List.takeWhile_append_dropWhile (p := isPySpace) (l := s)
        rw [← this] at hc
        rcases List.mem_append.mp hc with h1 | h1
        · exact absurd (List.mem_takeWhile_imp h1) hsp
        · exact h1
      have : isPySpace c = true := h c (by simpa using hc')
      exact hsp this
  · intro h c hc
    exact h c ((List.dropWhile_sublist _).subset (by simpa using hc))

/-- A string containing a non-whitespace character does not strip to empty. -/
theorem pyStrip_ne_nil_of_mem {c : Char} {s : Str} (hc : c ∈ s)
    (hsp : isPySpace c = false) : pyStrip s ≠ [] := by
  intro h
  have := (pyStrip_eq_nil_iff s).mp h c hc
  rw [hsp] at this
  exact Bool.false_ne_true this


theorem appendAll_eq_flatten (q : Str) (paths : List Str) :
    appendAll q paths = q ++ (paths.map (fun p => '\n' :: p)).flatten := by
  induction paths generalizing q with
  | nil => simp [appendAll]
  | cons p ps ih =>
    show appendAll (addInstanceToList q (some p)) ps = _
    rw [ih, addInstanceToList]
    simp [strOfArg]

theorem flatten_eq_cons_join (paths : List Str) (hne : paths ≠ []) :
    (paths.map (fun p => '\n' :: p)).flatten = '\n' :: pyJoin '\n' paths := by
  induction paths with
  | nil => exact absurd rfl hne
  | cons p ps ih =>
    cases ps with
    | nil => simp [pyJoin]
    | cons y ys =>
      simp only [List.map_cons, List.flatten_cons] at ih ⊢
      rw [ih (by simp)]
      show '\n' :: (p ++ '\n' :: pyJoin '\n' (y :: ys)) = _
      rfl

theorem pyJoin_ne_nil {paths : List Str} (hne : paths ≠ [])
    (hhd : paths.headI ≠ []) : pyJoin '\n' paths ≠ [] := by
  cases paths with
  | nil => exact absurd rfl hne
  | cons p ps =>
    simp only [List.headI] at hhd
    cases ps with
    | nil => simpa [pyJoin] using hhd
    | cons y ys =>
      show p ++ '\n' :: pyJoin '\n' (y :: ys) ≠ []
      simp

/-- A string fixed by `strip` is fixed by its leading and its trailing
whitespace trim separately. -/
theorem strip_fix_both {p : Str} (h : pyStrip p = p) :
    p.dropWhile isPySpace = p ∧
    p.reverse.dropWhile isPySpace = p.reverse := by
  unfold pyStrip at h
  have e1 : (((p.dropWhile isPySpace).reverse.dropWhile isPySpace).reverse).length
      = p.length := congrArg List.length h
  rw [List.length_reverse] at e1
  have l3 : ((p.dropWhile isPySpace).reverse.dropWhile isPySpace).length
      ≤ (p.dropWhile isPySpace).reverse.length :=
    (List.dropWhile_sublist _).length_le
  rw [List.length_reverse] at l3
  have l4 : (p.dropWhile isPySpace).length ≤ p.length :=
    (List.dropWhile_sublist _).length_le
  have e2 : (p.dropWhile isPySpace).length = p.length := by omega
  have ea : p.dropWhile isPySpace = p :=
    (List.dropWhile_sublist _).eq_of_length e2
  have e3 : ((p.dropWhile isPySpace).reverse.dropWhile isPySpace).length
      = (p.dropWhile isPySpace).reverse.length := by
    rw [List.length_reverse]; omega
  have eb := (List.dropWhile_sublist
    (l := (p.dropWhile isPySpace).reverse) isPySpace).eq_of_length e3
  rw [ea] at eb
  exact ⟨ea, eb⟩

theorem dropWhile_fix_append {xs ys : Str}
    (hx : xs.dropWhile isPySpace = xs) (hxne : xs ≠ []) :
    (xs ++ ys).dropWhile isPySpace = xs ++ ys := by
  rw [List.dropWhile_append, hx]
  simp [List.isEmpty_iff, hxne]

theorem join_dropWhile_fix {paths : List Str} (hne : paths ≠ [])
    (h : ∀ p ∈ paths, goodLine p) :
    (pyJoin '\n' paths).dropWhile isPySpace = pyJoin '\n' paths := by
  cases paths with
  | nil => exact absurd rfl hne
  | cons p ps =>
    have hp := h p (by simp)
    have hfix := (strip_fix_both hp.1).1
    cases ps with
    | nil => simpa [pyJoin] using hfix
    | cons y ys =>
      show (p ++ '\n' :: pyJoin '\n' (y :: ys)).dropWhile isPySpace = _
      exact dropWhile_fix_append hfix hp.2.1

theorem join_reverse_dropWhile_fix {paths : List Str} (hne : paths ≠ [])
    (h : ∀ p ∈ paths, goodLine p) :
    (pyJoin '\n' paths).reverse.dropWhile isPySpace
      = (pyJoin '\n' paths).reverse := by
  induction paths with
  | nil => exact absurd rfl hne
  | cons p ps ih =>
    have hp := h p (by simp)
    cases ps with
    | nil => simpa [pyJoin] using (strip_fix_both hp.1).2
    | cons y ys =>
      have hy := h y (by simp)
      have hjne : pyJoin '\n' (y :: ys) ≠ [] :=
        pyJoin_ne_nil (by simp) (by simpa [List.headI] using hy.2.1)
      have ihy := ih (by simp) (fun z hz => h z (List.mem_cons_of_mem p hz))
      have hrw : (pyJoin '\n' (p :: y :: ys)).reverse
          = (pyJoin '\n' (y :: ys)).reverse ++ (['\n'] ++ p.reverse) := by
        show (p ++ '\n' :: pyJoin '\n' (y :: ys)).reverse = _
        rw [List.reverse_append, List.reverse_cons, List.append_assoc]
      rw [hrw]
      exact dropWhile_fix_append ihy (by simpa using hjne)

/-- Stripping the appended queue (`"\np1\np2..."`) leaves exactly the
newline-joined paths. -/
theorem pyStrip_appendAll {paths : List Str} (hne : paths ≠ [])
    (h : ∀ p ∈ paths, goodLine p) :
    pyStrip (appendAll [] paths) = pyJoin '\n' paths := by
  rw [appendAll_eq_flatten, List.nil_append, flatten_eq_cons_join paths hne]
  unfold pyStrip
  rw [List.dropWhile_cons_of_pos (by decide)]
  rw [join_dropWhile_fix hne h, join_reverse_dropWhile_fix hne h,
    List.reverse_reverse]

/-- The core drain fact: appending well-formed paths to an empty queue and
draining once recovers exactly those paths, in order. -/
theorem drain_appendAll_requests (paths : List Str)
    (h : ∀ p ∈ paths, goodLine p) :
    (drainQueue (appendAll [] paths)).requests = paths := by
  cases paths with
  | nil => rfl
  | cons p ps =>
    have hne : (p :: ps : List Str) ≠ [] := by simp
    unfold drainQueue
    rw [pyStrip_appendAll hne h]
    rw [pySplit_pyJoin '\n' _ hne (fun x hx => (h x hx).2.2)]
    rw [if_neg (by simp [List.isEmpty_iff])]
    rw [List.filter_eq_self.mpr ?_]
    intro a ha
    have hg := h a ha
    simp [hg.1, List.isEmpty_iff, hg.2.1]

/-! ## Claims -/

/-- C1 (corrected).  Launching while `RunningMarker` exists:
`create_instance` with `main=False` only appends to the queue and constructs
nothing; if after the 0.2 s sleep the queue strips to empty (the primary
drained it, so the handoff was opened by the primary's poll tick), `start`
destroys the root and the second process never constructs a session; but if
the queue is still non-empty after the sleep, the second process itself
creates the marker, enters the poll loop and constructs the queued sessions
in its own process. -/
theorem second_launch_handoff
    (q : Str) (arg : Option Str) (paths : List Str) (hne : paths ≠ [])
    (h : ∀ p ∈ paths, goodLine p) :
    createInstance true false q arg = (addInstanceToList q arg, none) ∧
    (∀ q2 : Str, pyStrip q2 = [] → secondProcessRun q2 = (false, [])) ∧
    secondProcessRun (secondProcessAppendPhase [] (paths.map some)) =
      (true, paths.map (fun p => mkSession (some p))) := by
  refine ⟨by simp [createInstance], fun q2 h2 => by simp [secondProcessRun, h2], ?_⟩
  have hci : ∀ (x y : Str),
      (createInstance true false x (some y)).1 = addInstanceToList x (some y) :=
    fun x y => by simp [createInstance]
  have hphase : secondProcessAppendPhase [] (paths.map some)
      = appendAll [] paths := by
    unfold secondProcessAppendPhase appendAll
    rw [List.foldl_map]
    simp only [hci]
  rw [hphase]
  have hstrip := pyStrip_appendAll hne h
  have hjne : pyJoin '\n' paths ≠ [] := by
    cases paths with
    | nil => exact absurd rfl hne
    | cons p ps =>
      exact pyJoin_ne_nil (by simp)
        (by simpa [List.headI] using (h p (by simp)).2.1)
  unfold secondProcessRun
  rw [if_neg (by rw [hstrip]; exact hjne)]
  unfold drainSessions
  rw [drain_appendAll_requests paths h]

/-- C1, counterexample to the claim as stated: a process launched while the
marker exists, whose handoff is not drained during its sleep, enters the
poll loop and constructs the handed-off session itself. -/
theorem second_launch_constructs_itself :
    secondProcessRun (secondProcessAppendPhase [] [some "/tmp/a.txt".data]) =
      (true, [SessionReq.file "/tmp/a.txt".data]) := by decide

/-- C1, witness for `second_launch_handoff` at a concrete input. -/
theorem second_launch_handoff_witness :
    (∀ p ∈ ["/tmp/a.txt".data], goodLine p) ∧
    secondProcessRun
        (secondProcessAppendPhase [] (["/tmp/a.txt".data].map some)) =
      (true, ["/tmp/a.txt".data].map (fun p => mkSession (some p))) :=
  ⟨by intro p hp; simp at hp; subst hp; refine ⟨by decide, by decide, by decide⟩,
   (second_launch_handoff [] none ["/tmp/a.txt".data] (by simp)
     (by intro p hp; simp at hp; subst hp;
         exact ⟨by decide, by decide, by decide⟩)).2.2⟩

/-- C2 (confirmed).  N well-formed paths appended across any number of
producer calls are recovered by one full drain: exactly N open requests, in
append order, the file left empty; and any line of the split whose `strip()`
is empty yields no request. -/
theorem queue_drain_exact (paths : List Str)
    (h : ∀ p ∈ paths, goodLine p) :
    (drainQueue (appendAll [] paths)).requests = paths ∧
    (drainQueue (appendAll [] paths)).requests.length = paths.length ∧
    (drainQueue (appendAll [] paths)).newQueue = [] ∧
    (∀ q l, l ∈ pySplit '\n' (pyStrip q) → pyStrip l = [] →
      l ∉ (drainQueue q).requests) := by
  refine ⟨drain_appendAll_requests paths h, ?_, rfl, ?_⟩
  · rw [drain_appendAll_requests paths h]
  · intro q l _ hstrip hmem
    unfold drainQueue at hmem
    by_cases he : (pySplit '\n' (pyStrip q)).isEmpty
    · simp [he] at hmem
    · simp only [he, if_neg, Bool.false_eq_true, ite_false] at hmem
      have := (List.mem_filter.mp hmem).2
      rw [hstrip] at this
      simp at this

/-- C2, witness for `queue_drain_exact` at two concrete appended paths. -/
theorem queue_drain_exact_witness :
    (∀ p ∈ ["/tmp/a.txt".data, "/tmp/b.txt".data], goodLine p) ∧
    (drainQueue (appendAll [] ["/tmp/a.txt".data, "/tmp/b.txt".data])).requests
      = ["/tmp/a.txt".data, "/tmp/b.txt".data] :=
  ⟨by intro p hp; simp at hp
      rcases hp with rfl | rfl
      · exact ⟨by decide, by decide, by decide⟩
      · exact ⟨by decide, by decide, by decide⟩,
   (queue_drain_exact ["/tmp/a.txt".data, "/tmp/b.txt".data]
     (by intro p hp; simp at hp
         rcases hp with rfl | rfl
         · exact ⟨by decide, by decide, by decide⟩
         · exact ⟨by decide, by decide, by decide⟩)).1⟩

/-- C3 (confirmed).  The process exits and the marker is removed exactly
when the count observed at a poll tick's
`close_shard_if_no_instances_running` check is ≤ 0; `close_instance` only
decrements — it never exits the process or touches the marker. -/
theorem exit_only_on_poll_tick (s : CoordState) (reads : Nat → ReadResult) :
    ((pollTick s reads).alive = false ↔ pollObservedActive s reads ≤ 0) ∧
    (pollObservedActive s reads ≤ 0 →
      (pollTick s reads).markerExists = false) ∧
    (closeInstance s).alive = s.alive ∧
    (closeInstance s).markerExists = s.markerExists ∧
    (closeInstance s).active = s.active - 1 := by
  unfold pollTick closeInstance
  by_cases hc : pollObservedActive s reads ≤ 0
  · simp [hc]
  · simp [hc]

/-- C5 (code bug).  A `PermissionError` on save shows the error dialog and
writes nothing, but the code then falls through the success path: the
unsaved-indicator star is dropped from the title, and — when the save was
requested as part of closing — the instance is closed anyway, `True`
returned. -/
theorem save_permission_denied_closes_anyway :
    saveFile
      { filename := "a.txt".data, newFile := false, buffer := "hello".data,
        title := windowTitle ('*' :: "a.txt".data) }
      .permDenied true =
    { inst := { filename := "a.txt".data, newFile := false,
                buffer := "hello".data, title := windowTitle "a.txt".data },
      written := none, warned := false, errored := true, closed := true,
      returnedTrue := true } := by decide

/-- C6 (code bug).  A fatal error during `ShardInstance.__init__`
(`PermissionError` on load) runs `close_instance`, decrementing
`active_instances` with no matching increment; with one healthy session
open (count 1) and a handed-off unreadable path, the next poll tick
observes count 0 and tears the whole process down — marker removed, process
dead — although a healthy session was still open. -/
theorem failed_init_kills_process :
    shardInstanceInit (some "/tmp/x.txt".data) .permDenied =
      { inst := none, activeDelta := -1, errored := true } ∧
    pollTick
      { queue := '\n' :: "/tmp/x.txt".data, active := 1,
        markerExists := true, alive := true }
      (fun _ => ReadResult.permDenied) =
      { queue := [], active := 0, markerExists := false, alive := false } := by
  decide

/-- C10 (confirmed).  A blank open request renders as the literal
four-character line `None` (`f"\n{path}"` with `path = None`); the drain
treats the exact line `None` as a blank Untitled session
(`ShardInstance(master)`), so any handoff whose string form is `None` opens
a blank session, never a file of that name. -/
theorem none_handoff_blank_session :
    (∀ q : Str, addInstanceToList q none = q ++ '\n' :: "None".data) ∧
    ("None".data).length = 4 ∧
    mkSession (some "None".data) = SessionReq.blank ∧
    (∀ r : ReadResult, (shardInstanceInit none r).inst =
      some { filename := "Untitled".data, newFile := true, buffer := [],
             title := windowTitle "Untitled".data }) ∧
    drainSessions (addInstanceToList [] none) = [SessionReq.blank] :=
  ⟨fun _ => rfl, by decide, by decide, fun _ => rfl, by decide⟩

/-- C4, counterexample to the claim as stated: on an Unbound session with an
empty buffer the claim requires not-dirty, but `is_file_saved` still
returns `False` (unsaved, i.e. dirty) — new files are reported unsaved
unconditionally. -/
theorem unbound_empty_buffer_still_unsaved :
    (isFileSaved
      { filename := "Untitled".data, newFile := true, buffer := [],
        title := windowTitle "Untitled".data }
      (.content [])).result = some false ∧
    pyRstripNL (tkGetEnd []) = [] := by decide

/-- C4 (corrected).  For every Unbound session (`new_file = True`),
`is_file_saved` returns `False` unconditionally (so the session counts as
unsaved regardless of buffer content), does not close the instance, leaves
the buffer untouched, and — as its side effect — prefixes the title with
the `*` unsaved marker exactly when the buffer stripped of trailing
newlines is non-empty. -/
theorem unbound_dirty_check (inst : Instance) (disk : ReadResult)
    (h : inst.newFile = true) :
    (isFileSaved inst disk).result = some false ∧
    (isFileSaved inst disk).closedInstance = false ∧
    (isFileSaved inst disk).inst.buffer = inst.buffer ∧
    (pyRstripNL (tkGetEnd inst.buffer) ≠ [] →
      (isFileSaved inst disk).inst.title
        = windowTitle ('*' :: inst.filename)) ∧
    (pyRstripNL (tkGetEnd inst.buffer) = [] →
      (isFileSaved inst disk).inst.title = windowTitle inst.filename) := by
  unfold isFileSaved
  rw [h]
  by_cases hb : pyRstripNL (tkGetEnd inst.buffer) = []
  · simp [hb]
  · simp [hb]

/-- C4, witness for `unbound_dirty_check` at a concrete session. -/
theorem unbound_dirty_check_witness :
    ({ filename := "Untitled".data, newFile := true, buffer := "x".data,
       title := [] } : Instance).newFile = true ∧
    (isFileSaved
      { filename := "Untitled".data, newFile := true, buffer := "x".data,
        title := [] } (.content [])).result = some false :=
  ⟨rfl, (unbound_dirty_check _ (.content []) rfl).1⟩


/-- C8 (confirmed).  Round trip: a successful `save_file` writes exactly the
widget content (buffer plus the widget's phantom trailing newline); loading
that written content at construction yields a session whose buffer equals
the saved content, which differs from the pre-save buffer by exactly the
single trailing newline. -/
theorem save_load_roundtrip (inst : Instance) (p : Str)
    (h0 : pyStrip inst.filename ≠ [])
    (h1 : hasReservedChar inst.filename = false) :
    (saveFile inst .okUTF8 false).written = some (tkGetEnd inst.buffer) ∧
    ((shardInstanceInit (some p)
        (.content (tkGetEnd inst.buffer))).inst.map Instance.buffer)
      = some (tkGetEnd inst.buffer) ∧
    eqUpToOneTrailingNL (tkGetEnd inst.buffer) inst.buffer := by
  refine ⟨?_, rfl, Or.inr (Or.inl rfl)⟩
  unfold saveFile
  rw [if_neg h0, if_neg (by simp [h1])]

/-- C8, witness for `save_load_roundtrip` at a concrete session. -/
theorem save_load_roundtrip_witness :
    pyStrip ("a.txt".data) ≠ [] ∧
    ((shardInstanceInit (some "/tmp/a.txt".data)
        (.content (tkGetEnd "hello".data))).inst.map Instance.buffer)
      = some (tkGetEnd "hello".data) :=
  ⟨by decide,
   (save_load_roundtrip
     { filename := "a.txt".data, newFile := false, buffer := "hello".data,
       title := [] }
     "/tmp/a.txt".data (by decide) (by decide)).2.1⟩

/-- A reserved filename character is never whitespace, so a filename
containing one survives the empty-after-strip early return. -/
theorem hasReserved_strip_ne {s : Str} (h : hasReservedChar s = true) :
    pyStrip s ≠ [] := by
  unfold hasReservedChar at h
  obtain ⟨c, hc, hr⟩ := List.any_eq_true.mp h
  refine pyStrip_ne_nil_of_mem hc ?_
  have hmem : c ∈ reservedChars := by simpa using hr
  exact (by decide : ∀ c ∈ reservedChars, isPySpace c = false) c hmem

/-- The reserved-character rejection of `save_file`: warn and return with
the session untouched. -/
theorem saveFile_reserved_reject (inst : Instance) (w : WriteOutcome)
    (ca : Bool) (h : hasReservedChar inst.filename = true) :
    saveFile inst w ca =
      { inst := inst, written := none, warned := true, errored := false,
        closed := false, returnedTrue := false } := by
  unfold saveFile
  rw [if_neg (hasReserved_strip_ne h), if_pos h]

/-- C9, counterexample to the claim as stated: choosing `bad:name.txt` in
the save dialog does warn and write no document, but *before* the rejection
the session's display name has already been rebound to the invalid name and
the last-save-location record file has already been written — the rejection
does not precede all file I/O and the session does not keep its prior
name. -/
theorem invalid_filename_writes_location_record :
    saveWindow
      { filename := "Untitled".data, newFile := true, buffer := "hello".data,
        title := windowTitle "Untitled".data }
      true false (.content []) (some "bad:name.txt".data) .okUTF8 =
    { inst := { filename := "bad:name.txt".data, newFile := true,
                buffer := "hello".data, title := windowTitle "Untitled".data },
      docWritten := none, lastSaveLocWritten := true, warned := true,
      errored := false, closedInst := false } := by decide

/-- C9 (corrected).  `save_file` on a filename containing a reserved
character warns naming the disallowed symbols and returns before the
`mkdir`/write: nothing written, session state (dirty title, buffer,
`new_file`, filename) untouched.  On the dialog path, however,
`save_window` has already rebound the session's display name to the chosen
invalid name and written the last-save-location record before that
rejection; the document itself is still never written and buffer, title and
`new_file` keep their prior state. -/
theorem invalid_filename_rejection :
    (∀ (inst : Instance) (w : WriteOutcome) (ca : Bool),
      hasReservedChar inst.filename = true →
      saveFile inst w ca =
        { inst := inst, written := none, warned := true, errored := false,
          closed := false, returnedTrue := false }) ∧
    (∀ (inst : Instance) (ca : Bool) (disk : ReadResult) (name : Str)
      (w : WriteOutcome),
      hasReservedChar (pathName name) = true →
      saveWindow inst true ca disk (some name) w =
        { inst := { inst with filename := pathName name },
          docWritten := none, lastSaveLocWritten := true, warned := true,
          errored := false, closedInst := false }) := by
  constructor
  · intro inst w ca h
    exact saveFile_reserved_reject inst w ca h
  · intro inst ca disk name w h
    simp only [saveWindow, Bool.not_true, Bool.false_eq_true, if_false]
    rw [saveFile_reserved_reject _ w ca (by simpa using h)]
    rfl

/-- C9, witness for `invalid_filename_rejection` at concrete inputs. -/
theorem invalid_filename_rejection_witness :
    hasReservedChar ("bad:name.txt".data) = true ∧
    saveFile
      { filename := "bad:name.txt".data, newFile := false,
        buffer := "hi".data, title := [] } .okUTF8 true =
      { inst := { filename := "bad:name.txt".data, newFile := false,
                  buffer := "hi".data, title := [] },
        written := none, warned := true, errored := false, closed := false,
        returnedTrue := false } :=
  ⟨by decide,
   invalid_filename_rejection.1
     { filename := "bad:name.txt".data, newFile := false,
       buffer := "hi".data, title := [] } .okUTF8 true (by decide)⟩

/-! ## Settings validation lemmas (C7) -/

/-- `validate_written_settings` only reads the first nine fields, so the
nine-blank padding the caller may add changes nothing when nine fields are
already present. -/
theorem validate_append_pad (current : List Str) (h : 9 ≤ current.length) :
    validateWrittenSettings (current ++ List.replicate 9 [])
      = validateWrittenSettings current := by
  have g : ∀ j, j < 9 →
      (current ++ List.replicate 9 ([] : Str)).getD j [] = current.getD j [] :=
    fun j hj => List.getD_append _ _ _ _ (by omega)
  simp only [validateWrittenSettings]
  rw [g 0 (by omega), g 1 (by omega), g 2 (by omega), g 3 (by omega),
    g 4 (by omega), g 5 (by omega), g 6 (by omega), g 7 (by omega),
    g 8 (by omega)]

/-- A field that is valid and canonically rendered is reproduced verbatim by
validation. -/
theorem validate_field_preserved (vals : List Str) (j : Nat) (hj : j < 9)
    (hv : storedValidB j (vals.getD j []) = true) :
    (fieldStrings (validateWrittenSettings vals)).getD j []
      = vals.getD j [] := by
  simp only [storedValidB, Bool.and_eq_true] at hv
  interval_cases j <;>
    simp only [codeValidB] at hv <;>
    simp only [fieldStrings, validateWrittenSettings,
      List.getD_cons_zero, List.getD_cons_succ]
  · rw [if_pos hv.1]
  · rw [if_pos hv.1]
  · rw [if_pos hv.1]
  · rw [if_pos hv.1]
    exact (of_decide_eq_true hv.2).symm
  · rw [if_pos hv.1]
    exact (of_decide_eq_true hv.2).symm
  · rw [if_pos hv.1]
    exact (of_decide_eq_true hv.2).symm
  · rw [if_pos hv.1]
  · rw [if_pos hv.1]
  · rw [if_pos hv.1]

/-- A field the code's check rejects is replaced by its documented
default. -/
theorem validate_field_default (vals : List Str) (j : Nat) (hj : j < 9)
    (hbad : codeValidB j (vals.getD j []) = false) :
    (fieldStrings (validateWrittenSettings vals)).getD j []
      = defaultFields.getD j [] := by
  interval_cases j <;>
    simp only [codeValidB] at hbad <;>
    simp only [fieldStrings, validateWrittenSettings, defaultFields,
      List.getD_cons_zero, List.getD_cons_succ] <;>
    rw [if_neg (by simp only [hbad]; exact Bool.false_ne_true)]

/-- C7 (confirmed).  Reloading a stored 9-field record with one field
corrupted (rejected by the code's per-field check) restores exactly that
field to its documented default and reproduces every other valid field
verbatim; the corrected record is immediately rewritten
(`validate_written_settings` ends in `save_editor_settings`).  An absent
record yields all nine defaults, and a short record keeps its valid prefix
and defaults the missing fields. -/
theorem settings_reload_validation
    (fields : List Str) (hlen : fields.length = 9)
    (hval : ∀ j, j < 9 → storedValidB j (fields.getD j []) = true)
    (hnt : fields.all (fun f => !f.contains '\t') = true)
    (i : Nat) (hi : i < 9) (bad : Str)
    (hbad : codeValidB i bad = false) (hbadnt : bad.contains '\t' = false) :
    (∀ j, j < 9 → j ≠ i →
      (fieldStrings
        (getEditorSettings (pyJoin '\t' (fields.set i bad))).1).getD j []
        = fields.getD j []) ∧
    (fieldStrings
      (getEditorSettings (pyJoin '\t' (fields.set i bad))).1).getD i []
      = defaultFields.getD i [] ∧
    (getEditorSettings (pyJoin '\t' (fields.set i bad))).2
      = serializeSettings
          (getEditorSettings (pyJoin '\t' (fields.set i bad))).1 ∧
    fieldStrings (getEditorSettings []).1 = defaultFields ∧
    (getEditorSettings []).2 = pyJoin '\t' defaultFields ∧
    (∀ k, k < 9 →
      (∀ j, j < k →
        (fieldStrings
          (getEditorSettings (pyJoin '\t' (fields.take k))).1).getD j []
          = fields.getD j []) ∧
      (∀ j, k ≤ j → j < 9 →
        (fieldStrings
          (getEditorSettings (pyJoin '\t' (fields.take k))).1).getD j []
          = defaultFields.getD j [])) := by
  have hftab : ∀ f ∈ fields, ('\t' : Char) ∉ f := by
    intro f hf
    have := List.all_eq_true.mp hnt f hf
    simpa using this
  have hbadmem : ('\t' : Char) ∉ bad := by
    intro hm
    have hcm : bad.contains '\t' = true := by simpa using hm
    rw [hcm] at hbadnt
    exact Bool.noConfusion hbadnt
  have hset_tab : ∀ x ∈ fields.set i bad, ('\t' : Char) ∉ x := by
    intro x hx
    rcases List.mem_or_eq_of_mem_set hx with h1 | rfl
    · exact hftab x h1
    · exact hbadmem
  have hsetlen : (fields.set i bad).length = 9 := by
    rw [List.length_set, hlen]
  have hsetne : fields.set i bad ≠ [] := by
    intro h0; rw [h0] at hsetlen; exact absurd hsetlen (by decide)
  have hsplit : pySplit '\t' (pyJoin '\t' (fields.set i bad))
      = fields.set i bad := pySplit_pyJoin _ _ hsetne hset_tab
  have hcore : (getEditorSettings (pyJoin '\t' (fields.set i bad))).1
      = validateWrittenSettings (fields.set i bad) := by
    simp only [getEditorSettings, hsplit]
    split
    · rfl
    · exact validate_append_pad _ (by omega)
  have hgne : ∀ j, j ≠ i → (fields.set i bad).getD j [] = fields.getD j [] := by
    intro j hj
    simp only [List.getD_eq_getElem?_getD]
    rw [List.getElem?_set_ne (Ne.symm hj)]
  have hgeq : (fields.set i bad).getD i [] = bad := by
    simp only [List.getD_eq_getElem?_getD]
    rw [List.getElem?_set_self (by omega)]
    rfl
  refine ⟨?_, ?_, rfl, by decide, by decide, ?_⟩
  · intro j hj hne
    rw [hcore,
      validate_field_preserved _ j hj (by rw [hgne j hne]; exact hval j hj),
      hgne j hne]
  · rw [hcore, validate_field_default _ i hi (by rw [hgeq]; exact hbad)]
  · intro k hk
    cases k with
    | zero =>
      refine ⟨fun j hj => absurd hj (by omega), ?_⟩
      intro j _ _
      rw [List.take_zero]
      have hz : fieldStrings (getEditorSettings (pyJoin '\t' [])).1
          = defaultFields := by decide
      rw [hz]
    | succ m =>
      have htklen : (fields.take (m + 1)).length = m + 1 := by
        rw [List.length_take, hlen]; omega
      have htkne : fields.take (m + 1) ≠ [] := by
        intro h0; rw [h0] at htklen; exact absurd htklen (by simp)
      have hsp : pySplit '\t' (pyJoin '\t' (fields.take (m + 1)))
          = fields.take (m + 1) :=
        pySplit_pyJoin _ _ htkne
          (fun x hx => hftab x (List.mem_of_mem_take hx))
      have hcore2 : (getEditorSettings (pyJoin '\t' (fields.take (m + 1)))).1
          = validateWrittenSettings
              (fields.take (m + 1) ++ List.replicate 9 []) := by
        simp only [getEditorSettings, hsp]
        split
        · next hcond => exact absurd hcond.1 (by omega)
        · rfl
      constructor
      · intro j hj
        have hgd : (fields.take (m + 1) ++ List.replicate 9 ([] : Str)).getD j []
            = fields.getD j [] := by
          rw [List.getD_append _ _ _ _ (by omega)]
          simp only [List.getD_eq_getElem?_getD]
          rw [List.getElem?_take_of_lt hj]
        rw [hcore2,
          validate_field_preserved _ j (by omega)
            (by rw [hgd]; exact hval j (by omega)),
          hgd]
      · intro j hjk hj9
        have hgd : (fields.take (m + 1) ++ List.replicate 9 ([] : Str)).getD j []
            = [] := by
          rw [List.getD_append_right _ _ _ _ (by omega)]
          simp only [List.getD_eq_getElem?_getD]
          rw [List.getElem?_replicate_of_lt (by omega)]
          rfl
        rw [hcore2,
          validate_field_default _ j hj9
            (by rw [hgd]
                exact (by decide : ∀ j2, j2 < 9 → codeValidB j2 [] = false)
                  j hj9)]

/-- C7, witness for `settings_reload_validation`: the stored defaults with
the background field corrupted to an unknown color name. -/
theorem settings_reload_validation_witness :
    storedValidB 0 (defaultFields.getD 0 []) = true ∧
    (fieldStrings
      (getEditorSettings
        (pyJoin '\t' (defaultFields.set 0 "chartreuse".data))).1).getD 0 []
      = defaultFields.getD 0 [] :=
  ⟨by decide,
   (settings_reload_validation defaultFields (by decide)
     (by decide) (by decide) 0 (by decide) "chartreuse".data
     (by decide) (by decide)).2.1⟩

/-- C3, witness for `exit_only_on_poll_tick`: a tick observing count 0 on an
empty queue exits and removes the marker. -/
theorem exit_only_on_poll_tick_witness :
    pollObservedActive
      { queue := [], active := 0, markerExists := true, alive := true }
      (fun _ => ReadResult.content []) ≤ 0 ∧
    (pollTick
      { queue := [], active := 0, markerExists := true, alive := true }
      (fun _ => ReadResult.content [])).markerExists = false :=
  ⟨by decide,
   (exit_only_on_poll_tick
     { queue := [], active := 0, markerExists := true, alive := true }
     (fun _ => ReadResult.content [])).2.1 (by decide)⟩
